import Mathlib

/-!
# Verification of the TII scoring and classification engine

Shallow embedding of the scoring core of the `nba-integrity` repository:

* `src/tii/config.py` — classification table and `classify_tii`, component weights;
* `src/tii/compute/composite.py` — the four batch component scorers
  `_score_sas`, `_score_nrci`, `_score_ris`, `_score_btca` and the weighted
  composite aggregation of `compute_composite`;
* `src/dashboard.py` — the interactive (slider-parameterised) scorers
  `score_sas`, `score_nrci`, `score_ris`, `score_btca`, the boundary
  classifier `classify_plain`, and the split-based match test;
* `src/tii/compute/elimination.py` — `compute_elimination_date`.

Python floats are modelled as exact rationals (`ℚ`); Python's `round(x, 1)`
(round-half-to-even at one decimal place) is modelled by `round1`; Python
dictionaries with optional keys are modelled as structures of `Option`
fields together with getters that apply the `dict.get` defaults used by the
source.  Python strings are modelled as `String` / `List Char`.
-/

namespace TII

/-! ## Rounding: Python `round(x, 1)` on exact rationals -/

/-- Round a rational to the nearest integer, ties to the even integer —
the semantics of Python's builtin `round` on exact values. -/
def rhe (q : ℚ) : ℤ :=
  if q - ⌊q⌋ < 1/2 then ⌊q⌋
  else if 1/2 < q - ⌊q⌋ then ⌊q⌋ + 1
  else if ⌊q⌋ % 2 = 0 then ⌊q⌋ else ⌊q⌋ + 1

/-- Python `round(q, 1)`: round to one decimal place, ties to even. -/
def round1 (q : ℚ) : ℚ := (rhe (10 * q) : ℚ) / 10

theorem rhe_intCast (n : ℤ) : rhe (n : ℚ) = n := by
  simp [rhe]

theorem floor_le_rhe (q : ℚ) : ⌊q⌋ ≤ rhe q := by
  unfold rhe
  split_ifs <;> omega

theorem rhe_le_floor_add_one (q : ℚ) : rhe q ≤ ⌊q⌋ + 1 := by
  unfold rhe
  split_ifs <;> omega

theorem rhe_mono {a b : ℚ} (h : a ≤ b) : rhe a ≤ rhe b := by
  rcases lt_or_eq_of_le (Int.floor_le_floor h : ⌊a⌋ ≤ ⌊b⌋) with hf | hf
  · calc rhe a ≤ ⌊a⌋ + 1 := rhe_le_floor_add_one a
      _ ≤ ⌊b⌋ := by omega
      _ ≤ rhe b := floor_le_rhe b
  · unfold rhe
    rw [hf]
    have hab : a - ⌊b⌋ ≤ b - ⌊b⌋ := by
      have := (Rat.cast_le (K := ℚ)).2 (le_refl (⌊b⌋ : ℚ)); linarith
    split_ifs <;> first | omega | linarith

theorem rhe_nonneg {q : ℚ} (h : 0 ≤ q) : 0 ≤ rhe q := by
  have h0 : rhe (0 : ℚ) = 0 := by simpa using rhe_intCast 0
  have := rhe_mono h
  omega

theorem round1_mono {a b : ℚ} (h : a ≤ b) : round1 a ≤ round1 b := by
  unfold round1
  have : rhe (10 * a) ≤ rhe (10 * b) := rhe_mono (by linarith)
  have : (rhe (10 * a) : ℚ) ≤ (rhe (10 * b) : ℚ) := by exact_mod_cast this
  linarith

theorem round1_nonneg {q : ℚ} (h : 0 ≤ q) : 0 ≤ round1 q := by
  unfold round1
  have : (0 : ℤ) ≤ rhe (10 * q) := rhe_nonneg (by linarith)
  have : (0 : ℚ) ≤ (rhe (10 * q) : ℚ) := by exact_mod_cast this
  linarith

/-- A rational that is already a multiple of `1/10` is fixed by `round1`. -/
theorem round1_tenth (n : ℤ) : round1 ((n : ℚ) / 10) = (n : ℚ) / 10 := by
  unfold round1
  have h : (10 : ℚ) * ((n : ℚ) / 10) = (n : ℚ) := by ring
  rw [h, rhe_intCast]

/-! ## `src/tii/config.py` — classification table and weights -/

/-- `CLASSIFICATIONS` (config.py lines 146–151). -/
def CLASSIFICATIONS : List (ℚ × ℚ × String) :=
  [(0, 25, "Green"), (26, 50, "Yellow"), (51, 75, "Orange"), (76, 100, "Red")]

/-- The `for`-loop of `classify_tii`: first classification row whose
inclusive range contains the score. -/
def classifyLoop : List (ℚ × ℚ × String) → ℚ → Option String
  | [], _ => none
  | (low, high, label) :: rest, s =>
      if low ≤ s ∧ s ≤ high then some label else classifyLoop rest s

/-- `classify_tii` (config.py lines 174–179), including the fall-through
`return "Red" if score > 100 else "Green"`. -/
def classify_tii (score : ℚ) : String :=
  (classifyLoop CLASSIFICATIONS score).getD (if score > 100 then "Red" else "Green")

/-- `WEIGHTS` (config.py lines 138–143), as the four values of the dict. -/
structure Weights where
  sas : ℚ
  nrci : ℚ
  ris : ℚ
  btca : ℚ

def defaultWeights : Weights := { sas := 3/10, nrci := 1/4, ris := 1/4, btca := 1/5 }

/-! ## Metrics bundles

Each bundle is the Python dict consumed by one component scorer; the
structures carry exactly the keys the scorers read.  An `Option` value
models key absence, and the getters apply the `dict.get(key, default)`
defaults of the source.  The `error` flag models the presence of a truthy
`"error"` value in the dict. -/

structure SasAbsenceSummary where
  absence_rate : Option ℚ

structure SasClustering where
  cluster_ratio : Option ℚ

structure SasDistribution where
  loss_absence_rate : Option ℚ
  win_absence_rate : Option ℚ

structure SasBundle where
  error : Bool
  absence_summary : Option SasAbsenceSummary
  clustering : Option SasClustering
  distribution : Option SasDistribution

def SasBundle.absenceRate (b : SasBundle) : ℚ :=
  (b.absence_summary.bind (·.absence_rate)).getD 0

def SasBundle.clusterRatio (b : SasBundle) : ℚ :=
  (b.clustering.bind (·.cluster_ratio)).getD 0

def SasBundle.lossRate (b : SasBundle) : ℚ :=
  (b.distribution.bind (·.loss_absence_rate)).getD 0

def SasBundle.winRate (b : SasBundle) : ℚ :=
  (b.distribution.bind (·.win_absence_rate)).getD 0

structure NrciRolling where
  max_decline : Option ℚ

structure NrciPrePostElim where
  net_rating_change : Option ℚ

structure NrciQ4 where
  close_game_win_pct : Option ℚ

structure NrciBundle where
  error : Bool
  rolling_net_rating : Option NrciRolling
  pre_post_elim : Option NrciPrePostElim
  q4_performance : Option NrciQ4

def NrciBundle.maxDecline (b : NrciBundle) : ℚ :=
  (b.rolling_net_rating.bind (·.max_decline)).getD 0

def NrciBundle.nrChange (b : NrciBundle) : ℚ :=
  (b.pre_post_elim.bind (·.net_rating_change)).getD 0

def NrciBundle.closeWinPct (b : NrciBundle) : ℚ :=
  (b.q4_performance.bind (·.close_game_win_pct)).getD (1/2)

structure RisChanges where
  significant_decreases : Option ℚ
  avg_minutes_change : Option ℚ
  new_rotation_players : Option (List String)

structure RisCorrelation where
  correlation_shift : Option ℚ

structure RisExperimentation where
  experimentation_increase : Option ℚ

structure RisBundle where
  error : Bool
  post_elim_changes : Option RisChanges
  quality_correlation : Option RisCorrelation
  experimentation : Option RisExperimentation

def RisBundle.sigDecreases (b : RisBundle) : ℚ :=
  (b.post_elim_changes.bind (·.significant_decreases)).getD 0

def RisBundle.newRotationCount (b : RisBundle) : ℕ :=
  ((b.post_elim_changes.bind (·.new_rotation_players)).getD []).length

def RisBundle.corrShift (b : RisBundle) : ℚ :=
  (b.quality_correlation.bind (·.correlation_shift)).getD 0

def RisBundle.expIncrease (b : RisBundle) : ℚ :=
  (b.experimentation.bind (·.experimentation_increase)).getD 0

structure BtcaLeagueContext where
  deviation_from_baseline : Option ℚ

structure BtcaTemporal where
  post_as_pct_of_pre : Option ℚ

structure BtcaPostElimPeriod where
  win_rate : Option ℚ

/-- Models the `periods` dict; the scorer only reads `"Post-elimination"`. -/
structure BtcaPeriods where
  post_elimination : Option BtcaPostElimPeriod

structure BtcaCalendar where
  periods : Option BtcaPeriods

structure BtcaBundle where
  error : Bool
  league_context : Option BtcaLeagueContext
  temporal_pattern : Option BtcaTemporal
  calendar_correlation : Option BtcaCalendar

def BtcaBundle.deviation (b : BtcaBundle) : ℚ :=
  |(b.league_context.bind (·.deviation_from_baseline)).getD 0|

def BtcaBundle.pctOfPre (b : BtcaBundle) : ℚ :=
  (b.temporal_pattern.bind (·.post_as_pct_of_pre)).getD 100

def BtcaBundle.postElimWinRate (b : BtcaBundle) : ℚ :=
  ((((b.calendar_correlation.bind (·.periods)).getD ⟨none⟩).post_elimination.bind
      (·.win_rate))).getD (1/2)

/-! ## Batch scorers — `src/tii/compute/composite.py`

Each scorer accumulates `score += …` block by block; the blocks are
transcribed as one sub-score function each and the scorer is their sum. -/

/-- Absence-rate block of `_score_sas` (composite.py lines 16–23). -/
def sasAbsencePts (absence_rate : ℚ) : ℚ :=
  if absence_rate > 1/2 then 30 + min ((absence_rate - 1/2) * 100) 10
  else if absence_rate > 1/4 then 15 + (absence_rate - 1/4) * 60
  else if absence_rate > 1/10 then (absence_rate - 1/10) * 100
  else 0

/-- Clustering-ratio block of `_score_sas` (composite.py lines 25–35). -/
def sasClusterPts (ratio : ℚ) : ℚ :=
  if ratio ≥ 3 then 30
  else if ratio ≥ 2 then 20 + (ratio - 2) * 10
  else if ratio ≥ 3/2 then 10 + (ratio - 3/2) * 20
  else if ratio ≥ 1 then (ratio - 1) * 20
  else 0

/-- Skew ramp of `_score_sas` (composite.py lines 43–48). -/
def sasSkewRamp (skew : ℚ) : ℚ :=
  if skew ≥ 2 then 30
  else if skew ≥ 3/2 then 15 + (skew - 3/2) * 30
  else if skew ≥ 1 then (skew - 1) * 30
  else 0

/-- Distribution-skew block of `_score_sas` (composite.py lines 37–48),
including the dead `else 2.0` arm of the `skew` conditional. -/
def sasSkewPts (loss_rate win_rate : ℚ) : ℚ :=
  if loss_rate > 0 ∧ win_rate > 0 then
    sasSkewRamp (if win_rate > 0 then loss_rate / win_rate else 2)
  else 0

/-- Batch `_score_sas` (composite.py lines 9–50).  Note: unlike the other
three scorers it has no `error` guard. -/
def _score_sas (b : SasBundle) : ℚ :=
  min (round1 (sasAbsencePts b.absenceRate + sasClusterPts b.clusterRatio +
    sasSkewPts b.lossRate b.winRate)) 100

/-- Rolling-decline block of `_score_nrci` (composite.py lines 60–68). -/
def nrciDeclinePts (decline : ℚ) : ℚ :=
  if decline ≥ 15 then 35
  else if decline ≥ 10 then 20 + (decline - 10) * 3
  else if decline ≥ 5 then 5 + (decline - 5) * 3
  else 0

/-- Pre/post-elimination collapse block of `_score_nrci`
(composite.py lines 70–80). -/
def nrciCollapsePts (nr_change : ℚ) : ℚ :=
  if nr_change < -8 then 35
  else if nr_change < -5 then 20 + (|nr_change| - 5) * 5
  else if nr_change < -3 then 10 + (|nr_change| - 3) * 5
  else if nr_change < 0 then |nr_change| * (33/10)
  else 0

/-- Close-game block of `_score_nrci` (composite.py lines 82–91). -/
def nrciClosePts (close_wp : ℚ) : ℚ :=
  if close_wp < 1/5 then 30
  else if close_wp < 35/100 then 15 + (35/100 - close_wp) * 100
  else if close_wp < 45/100 then (45/100 - close_wp) * 150
  else 0

/-- Batch `_score_nrci` (composite.py lines 53–93). -/
def _score_nrci (b : NrciBundle) : ℚ :=
  if b.error then 0
  else min (round1 (nrciDeclinePts b.maxDecline + nrciCollapsePts b.nrChange +
    nrciClosePts b.closeWinPct)) 100

/-- Significant-decrease block of `_score_ris` (composite.py lines 103–113). -/
def risSigDecPts (sig_decreases : ℚ) : ℚ :=
  if sig_decreases ≥ 5 then 35
  else if sig_decreases ≥ 3 then 20 + (sig_decreases - 3) * (15/2)
  else if sig_decreases ≥ 1 then sig_decreases * 10
  else 0

/-- New-rotation-players block of `_score_ris` (composite.py lines 115–117). -/
def risNewPlayerPts (new_players : ℕ) : ℚ :=
  min ((new_players : ℚ) * 5) 20

/-- Correlation-shift block of `_score_ris` (composite.py lines 119–127). -/
def risCorrPts (corr_shift : ℚ) : ℚ :=
  if corr_shift < -(3/10) then 25
  else if corr_shift < -(15/100) then 10 + (|corr_shift| - 15/100) * 100
  else if corr_shift < 0 then |corr_shift| * (667/10)
  else 0

/-- Experimentation block of `_score_ris` (composite.py lines 129–137). -/
def risExpPts (exp_increase : ℚ) : ℚ :=
  if exp_increase ≥ 2 then 20
  else if exp_increase ≥ 1 then 10 + (exp_increase - 1) * 10
  else if exp_increase > 0 then exp_increase * 10
  else 0

/-- Batch `_score_ris` (composite.py lines 96–139). -/
def _score_ris (b : RisBundle) : ℚ :=
  if b.error then 0
  else min (round1 (risSigDecPts b.sigDecreases + risNewPlayerPts b.newRotationCount +
    risCorrPts b.corrShift + risExpPts b.expIncrease)) 100

/-- League-context block of `_score_btca` (composite.py lines 149–157);
its argument is the already-taken absolute deviation. -/
def btcaDeviationPts (deviation : ℚ) : ℚ :=
  if deviation ≥ 2 then 30
  else if deviation ≥ 1 then 15 + (deviation - 1) * 15
  else deviation * 15

/-- Temporal-pattern block of `_score_btca` (composite.py lines 159–169). -/
def btcaTemporalPts (pct_of_pre : ℚ) : ℚ :=
  if pct_of_pre < 30 then 40
  else if pct_of_pre < 50 then 25 + (50 - pct_of_pre) * (3/4)
  else if pct_of_pre < 70 then 10 + (70 - pct_of_pre) * (3/4)
  else if pct_of_pre < 90 then (90 - pct_of_pre) * (1/2)
  else 0

/-- Calendar-correlation block of `_score_btca` (composite.py lines 171–184). -/
def btcaCalendarPts (post_elim_wr : ℚ) : ℚ :=
  if post_elim_wr < 1/10 then 30
  else if post_elim_wr < 1/5 then 20 + (1/5 - post_elim_wr) * 100
  else if post_elim_wr < 3/10 then 10 + (3/10 - post_elim_wr) * 100
  else if post_elim_wr < 2/5 then (2/5 - post_elim_wr) * 100
  else 0

/-- Batch `_score_btca` (composite.py lines 142–186). -/
def _score_btca (b : BtcaBundle) : ℚ :=
  if b.error then 0
  else min (round1 (btcaDeviationPts b.deviation + btcaTemporalPts b.pctOfPre +
    btcaCalendarPts b.postElimWinRate)) 100

/-- Weighted-composite loop of `compute_composite`
(composite.py lines 227–236): each weighted term is rounded to one
decimal place, the terms are summed in dict order SAS, NRCI, RIS, BTCA,
and the sum is rounded again. -/
def compositeScore (sas nrci ris btca : ℚ) (w : Weights) : ℚ :=
  round1 (round1 (sas * w.sas) + round1 (nrci * w.nrci) +
    round1 (ris * w.ris) + round1 (btca * w.btca))

/-- Batch match flag (composite.py line 245): Python's substring test
`classification in case["expected_classification"]`. -/
def isPrefixL : List Char → List Char → Bool
  | [], _ => true
  | _ :: _, [] => false
  | a :: as, b :: bs => a == b && isPrefixL as bs

/-- Python's `needle in haystack` on strings: contiguous-substring test. -/
def containsSub (needle : List Char) : List Char → Bool
  | [] => needle.isEmpty
  | c :: rest => isPrefixL needle (c :: rest) || containsSub needle rest

/-- Batch match flag of `compute_composite` (composite.py line 245). -/
def batchMatch (classification expected : String) : Bool :=
  containsSub classification.data expected.data

/-! ## Interactive dashboard — `src/dashboard.py`

The slider-driven scorers, transcribed with the slider values as explicit
parameters; the default parameter records carry the sliders' documented
default values.  A Python empty dict (`if not data`) corresponds to a
bundle whose fields are all absent. -/

def SasBundle.pyEmpty (b : SasBundle) : Bool :=
  !b.error && b.absence_summary.isNone && b.clustering.isNone && b.distribution.isNone

def NrciBundle.pyEmpty (b : NrciBundle) : Bool :=
  !b.error && b.rolling_net_rating.isNone && b.pre_post_elim.isNone && b.q4_performance.isNone

def RisBundle.pyEmpty (b : RisBundle) : Bool :=
  !b.error && b.post_elim_changes.isNone && b.quality_correlation.isNone &&
    b.experimentation.isNone

def BtcaBundle.pyEmpty (b : BtcaBundle) : Bool :=
  !b.error && b.league_context.isNone && b.temporal_pattern.isNone &&
    b.calendar_correlation.isNone

/-- SAS threshold sliders (dashboard.py lines 196–210). -/
structure SasSliders where
  absence_low : ℚ
  absence_mid : ℚ
  absence_high : ℚ
  cluster_flag : ℚ
  skew_flag : ℚ

/-- Documented SAS defaults: 0.10 / 0.25 / 0.50, cluster 2.0, skew 1.5. -/
def defaultSasSliders : SasSliders :=
  { absence_low := 1/10, absence_mid := 1/4, absence_high := 1/2,
    cluster_flag := 2, skew_flag := 3/2 }

/-- Absence block of interactive `score_sas` (dashboard.py lines 285–291). -/
def dashSasAbsencePts (t : SasSliders) (ar : ℚ) : ℚ :=
  if ar > t.absence_high then 30 + min ((ar - t.absence_high) * 100) 10
  else if ar > t.absence_mid then
    15 + (ar - t.absence_mid) / max (t.absence_high - t.absence_mid) (1/100) * 15
  else if ar > t.absence_low then
    (ar - t.absence_low) / max (t.absence_mid - t.absence_low) (1/100) * 15
  else 0

/-- Clustering block of interactive `score_sas` (dashboard.py lines 293–300). -/
def dashSasClusterPts (t : SasSliders) (ratio : ℚ) : ℚ :=
  if ratio ≥ t.cluster_flag * (3/2) then 30
  else if ratio ≥ t.cluster_flag then
    20 + (ratio - t.cluster_flag) / max (t.cluster_flag * (1/2)) (1/100) * 10
  else if ratio ≥ 1 then (ratio - 1) / max (t.cluster_flag - 1) (1/100) * 20
  else 0

/-- Skew ramp of interactive `score_sas` (dashboard.py lines 306–312). -/
def dashSasSkewRamp (t : SasSliders) (skew : ℚ) : ℚ :=
  if skew ≥ t.skew_flag * (133/100) then 30
  else if skew ≥ t.skew_flag then
    15 + (skew - t.skew_flag) / max (t.skew_flag * (33/100)) (1/100) * 15
  else if skew ≥ 1 then (skew - 1) / max (t.skew_flag - 1) (1/100) * 15
  else 0

/-- Skew block of interactive `score_sas` (dashboard.py lines 302–312). -/
def dashSasSkewPts (t : SasSliders) (lr wr : ℚ) : ℚ :=
  if lr > 0 ∧ wr > 0 then dashSasSkewRamp t (lr / wr) else 0

/-- Interactive `score_sas` (dashboard.py lines 280–314). -/
def score_sas (t : SasSliders) (b : SasBundle) : ℚ :=
  if b.pyEmpty then 0
  else min (round1 (dashSasAbsencePts t b.absenceRate +
    dashSasClusterPts t b.clusterRatio + dashSasSkewPts t b.lossRate b.winRate)) 100

/-- NRCI threshold sliders (dashboard.py lines 219–239). -/
structure NrciSliders where
  decline_mid : ℚ
  decline_high : ℚ
  decline_max : ℚ
  collapse_mild : ℚ
  collapse_mod : ℚ
  collapse_severe : ℚ
  close_wp_suspicious : ℚ

/-- Documented NRCI defaults: decline 5/10/15, collapse −3/−5/−8, close 0.35. -/
def defaultNrciSliders : NrciSliders :=
  { decline_mid := 5, decline_high := 10, decline_max := 15,
    collapse_mild := -3, collapse_mod := -5, collapse_severe := -8,
    close_wp_suspicious := 35/100 }

/-- Decline block of interactive `score_nrci` (dashboard.py lines 321–328). -/
def dashNrciDeclinePts (t : NrciSliders) (decline : ℚ) : ℚ :=
  if decline ≥ t.decline_max then 35
  else if decline ≥ t.decline_high then
    20 + (decline - t.decline_high) / max (t.decline_max - t.decline_high) (1/100) * 15
  else if decline ≥ t.decline_mid then
    5 + (decline - t.decline_mid) / max (t.decline_high - t.decline_mid) (1/100) * 15
  else 0

/-- Collapse block of interactive `score_nrci` (dashboard.py lines 330–339). -/
def dashNrciCollapsePts (t : NrciSliders) (nr_change : ℚ) : ℚ :=
  if nr_change < t.collapse_severe then 35
  else if nr_change < t.collapse_mod then
    20 + (|nr_change| - |t.collapse_mod|) /
      max (|t.collapse_severe| - |t.collapse_mod|) (1/100) * 15
  else if nr_change < t.collapse_mild then
    10 + (|nr_change| - |t.collapse_mild|) /
      max (|t.collapse_mod| - |t.collapse_mild|) (1/100) * 10
  else if nr_change < 0 then |nr_change| / max |t.collapse_mild| (1/100) * 10
  else 0

/-- Close-game block of interactive `score_nrci` (dashboard.py lines 341–348). -/
def dashNrciClosePts (t : NrciSliders) (close_wp : ℚ) : ℚ :=
  if close_wp < t.close_wp_suspicious - 15/100 then 30
  else if close_wp < t.close_wp_suspicious then
    15 + (t.close_wp_suspicious - close_wp) / (15/100) * 15
  else if close_wp < t.close_wp_suspicious + 1/10 then
    (t.close_wp_suspicious + 1/10 - close_wp) / (1/10) * 15
  else 0

/-- Interactive `score_nrci` (dashboard.py lines 317–350). -/
def score_nrci (t : NrciSliders) (b : NrciBundle) : ℚ :=
  if b.pyEmpty || b.error then 0
  else min (round1 (dashNrciDeclinePts t b.maxDecline +
    dashNrciCollapsePts t b.nrChange + dashNrciClosePts t b.closeWinPct)) 100

/-- RIS threshold sliders (dashboard.py lines 248–259). -/
structure RisSliders where
  sig_decrease_mod : ℚ
  sig_decrease_high : ℚ
  corr_shift_flag : ℚ
  new_player_pts : ℚ

/-- Documented RIS defaults: decreases 3/5, shift −0.15, 5 points per player. -/
def defaultRisSliders : RisSliders :=
  { sig_decrease_mod := 3, sig_decrease_high := 5,
    corr_shift_flag := -(15/100), new_player_pts := 5 }

/-- Significant-decrease block of interactive `score_ris`
(dashboard.py lines 357–364). -/
def dashRisSigDecPts (t : RisSliders) (sd : ℚ) : ℚ :=
  if sd ≥ t.sig_decrease_high then 35
  else if sd ≥ t.sig_decrease_mod then
    20 + (sd - t.sig_decrease_mod) / max (t.sig_decrease_high - t.sig_decrease_mod) 1 * 15
  else if sd ≥ 1 then sd / max t.sig_decrease_mod 1 * 20
  else 0

/-- New-rotation-players block of interactive `score_ris`
(dashboard.py lines 366–367). -/
def dashRisNewPlayerPts (t : RisSliders) (new_players : ℕ) : ℚ :=
  min ((new_players : ℚ) * t.new_player_pts) 20

/-- Correlation-shift block of interactive `score_ris`
(dashboard.py lines 369–376). -/
def dashRisCorrPts (t : RisSliders) (cs : ℚ) : ℚ :=
  if cs < t.corr_shift_flag * 2 then 25
  else if cs < t.corr_shift_flag then
    10 + (|cs| - |t.corr_shift_flag|) / max |t.corr_shift_flag| (1/100) * 15
  else if cs < 0 then |cs| / max |t.corr_shift_flag| (1/100) * 10
  else 0

/-- Experimentation block of interactive `score_ris`
(dashboard.py lines 378–385). -/
def dashRisExpPts (ei : ℚ) : ℚ :=
  if ei ≥ 2 then 20
  else if ei ≥ 1 then 10 + (ei - 1) * 10
  else if ei > 0 then ei * 10
  else 0

/-- Interactive `score_ris` (dashboard.py lines 353–387). -/
def score_ris (t : RisSliders) (b : RisBundle) : ℚ :=
  if b.pyEmpty || b.error then 0
  else min (round1 (dashRisSigDecPts t b.sigDecreases +
    dashRisNewPlayerPts t b.newRotationCount + dashRisCorrPts t b.corrShift +
    dashRisExpPts b.expIncrease)) 100

/-- BTCA threshold sliders (dashboard.py lines 268–273). -/
structure BtcaSliders where
  post_asb_flag : ℚ
  post_elim_wr : ℚ

/-- Documented BTCA defaults: post-ASB 50, post-elimination win rate 0.20. -/
def defaultBtcaSliders : BtcaSliders := { post_asb_flag := 50, post_elim_wr := 1/5 }

/-- Temporal block of interactive `score_btca` (dashboard.py lines 404–411). -/
def dashBtcaTemporalPts (t : BtcaSliders) (pct : ℚ) : ℚ :=
  if pct < t.post_asb_flag * (6/10) then 40
  else if pct < t.post_asb_flag then
    25 + (t.post_asb_flag - pct) / max (t.post_asb_flag * (4/10)) 1 * 15
  else if pct < t.post_asb_flag * (14/10) then
    (t.post_asb_flag * (14/10) - pct) / max (t.post_asb_flag * (4/10)) 1 * 25
  else 0

/-- Calendar block of interactive `score_btca` (dashboard.py lines 413–422). -/
def dashBtcaCalendarPts (t : BtcaSliders) (pewr : ℚ) : ℚ :=
  if pewr < t.post_elim_wr * (1/2) then 30
  else if pewr < t.post_elim_wr then
    15 + (t.post_elim_wr - pewr) / max (t.post_elim_wr * (1/2)) (1/100) * 15
  else if pewr < t.post_elim_wr + 1/10 then (t.post_elim_wr + 1/10 - pewr) / (1/10) * 15
  else 0

/-- Interactive `score_btca` (dashboard.py lines 390–424); the deviation
block (lines 395–402) is the same text as the batch `btcaDeviationPts`. -/
def score_btca (t : BtcaSliders) (b : BtcaBundle) : ℚ :=
  if b.pyEmpty || b.error then 0
  else min (round1 (btcaDeviationPts b.deviation + dashBtcaTemporalPts t b.pctOfPre +
    dashBtcaCalendarPts t b.postElimWinRate)) 100

/-- Interactive boundary classifier `classify_plain`
(dashboard.py lines 178–186). -/
def classify_plain (green_max yellow_max orange_max score : ℚ) : String :=
  if score ≤ green_max then "Green"
  else if score ≤ yellow_max then "Yellow"
  else if score ≤ orange_max then "Orange"
  else "Red"

/-- Python `str.strip` restricted to spaces, the only whitespace that can
occur in an expected-classification value. -/
def pyStrip (l : List Char) : List Char :=
  ((l.dropWhile (· = ' ')).reverse.dropWhile (· = ' ')).reverse

/-- Python `str.split("/")`. -/
def splitSlash : List Char → List (List Char)
  | [] => [[]]
  | c :: rest =>
      if c = '/' then [] :: splitSlash rest
      else
        match splitSlash rest with
        | [] => [[c]]
        | p :: ps => (c :: p) :: ps

/-- Dashboard match flag (dashboard.py lines 443–444):
`match_parts = [e.strip() for e in expected.split("/")]`,
`match = cls_plain in match_parts`. -/
def dashboardMatch (classification expected : String) : Bool :=
  ((splitSlash expected.data).map pyStrip).contains classification.data

/-! ## Elimination resolver — `src/tii/compute/elimination.py` -/

/-- One row of the team game log, with the columns the resolver reads:
`game_number`, `game_date`, `wl` (modelled as `wl_win = (wl == "W")`),
and the cumulative `w`/`l` record columns. -/
structure GameRow where
  game_number : ℕ
  game_date : String
  wl_win : Bool
  w : ℕ
  l : ℕ

/-- The chronological walk of `compute_elimination_date`
(elimination.py lines 49–63): wins are accumulated including the current
game, then `max_possible = wins_so_far + (total_games - game_number)` is
compared with the cutoff; the loop breaks at the first game where
`max_possible < cutoff_wins`. -/
def elimWalk (total : ℕ) (cutoff : ℤ) : List GameRow → ℕ → Option (String × ℕ)
  | [], _ => none
  | r :: rest, wins =>
      let wins' := if r.wl_win then wins + 1 else wins
      if (wins' : ℤ) + ((total : ℤ) - (r.game_number : ℤ)) < cutoff then
        some (r.game_date, r.game_number)
      else elimWalk total cutoff rest wins'

/-- The fields of the result dict of `compute_elimination_date` that the
claims are about. -/
structure ElimResult where
  elimination_date : Option String
  elimination_game_number : Option ℕ
  final_wins : Option ℕ

/-- Result assembly of `compute_elimination_date`
(elimination.py lines 46–83): on a break the date and game number are
returned; otherwise both are `None` and `final_wins` is the `w` column of
the last game-log row (`game_logs.iloc[-1]["w"]`).  The rows are taken
already sorted by `game_number`, as produced by the
`sort_values("game_number")` on line 46. -/
def compute_elimination_date (rows : List GameRow) (cutoff : ℤ) : ElimResult :=
  match elimWalk rows.length cutoff rows 0 with
  | some (d, g) => { elimination_date := some d, elimination_game_number := some g,
                     final_wins := none }
  | none => { elimination_date := none, elimination_game_number := none,
              final_wins := rows.getLast?.map (·.w) }

/-- Number of wins among the first `k` games of the log. -/
def winsUpTo (rows : List GameRow) (k : ℕ) : ℕ :=
  (rows.take k).countP (·.wl_win)

/-- Transcription of the claimed contract: the first game `k` (1-based) at
which `wins_so_far + (N - k) < cutoff_wins`, where `wins_so_far` counts
the wins in games `1..k`. -/
def specFirstElim (rows : List GameRow) (cutoff : ℤ) : Option ℕ :=
  (List.range' 1 rows.length).find? fun k =>
    decide ((winsUpTo rows k : ℤ) + ((rows.length : ℤ) - (k : ℤ)) < cutoff)

/-! ## Concrete inputs used by witnesses and counterexamples -/

/-- The four classification labels, in table order. -/
def tiiLabels : List String := ["Green", "Yellow", "Orange", "Red"]

/-- Bundle with every section and field absent (the empty dict `{}`). -/
def emptySasBundle : SasBundle := ⟨false, none, none, none⟩

def emptyNrciBundle : NrciBundle := ⟨false, none, none, none⟩

def emptyRisBundle : RisBundle := ⟨false, none, none, none⟩

def emptyBtcaBundle : BtcaBundle := ⟨false, none, none, none⟩

/-- The SAS bundle produced by `compute_sas` when a required raw table is
absent (sas.py lines 25–38): the four sections are initialised empty, an
`error` message is set, and the bundle is returned at once. -/
def sasErrorBundle : SasBundle := ⟨true, some ⟨none⟩, some ⟨none⟩, some ⟨none, none⟩⟩

/-- Bundle whose qualified stars are absent only in losses: loss-game
absence rate 5, win-game absence rate 0. -/
def skewOnlyLossBundle : SasBundle := ⟨false, none, none, some ⟨some 5, some 0⟩⟩

/-- SAS bundle with loss/win skew ratio 1.8 and nothing else set. -/
def skew18Bundle : SasBundle := ⟨false, none, none, some ⟨some (9/5), some 1⟩⟩

/-- NRCI bundle with post-elimination net-rating change exactly −3. -/
def collapse3Bundle : NrciBundle := ⟨false, none, some ⟨some (-3)⟩, none⟩

/-- RIS bundle with exactly one significant minute decrease. -/
def oneSigDecBundle : RisBundle := ⟨false, some ⟨some 1, none, none⟩, none, none⟩

/-- BTCA bundle with post-ASB percentage of pre at 80. -/
def pct80Bundle : BtcaBundle := ⟨false, none, some ⟨some 80⟩, none⟩

/-- SAS bundle with absence rate 1/5 (and one with 2/5). -/
def rate15Bundle : SasBundle := ⟨false, some ⟨some (1/5)⟩, none, none⟩

def rate25Bundle : SasBundle := ⟨false, some ⟨some (2/5)⟩, none, none⟩

/-- A three-game log of a team that loses its first two games and wins the
third, with dense game numbers and consistent cumulative record columns. -/
def elimExampleLog : List GameRow :=
  [{ game_number := 1, game_date := "2024-01-01", wl_win := false, w := 0, l := 1 },
   { game_number := 2, game_date := "2024-01-03", wl_win := false, w := 0, l := 2 },
   { game_number := 3, game_date := "2024-01-05", wl_win := true, w := 1, l := 2 }]

/-! ## Theorems -/

/-- Closed form of `classify_tii`: the four inclusive table rows in order,
then the fall-through default. -/
theorem classify_tii_eval (s : ℚ) :
    classify_tii s =
      if 0 ≤ s ∧ s ≤ 25 then "Green"
      else if 26 ≤ s ∧ s ≤ 50 then "Yellow"
      else if 51 ≤ s ∧ s ≤ 75 then "Orange"
      else if 76 ≤ s ∧ s ≤ 100 then "Red"
      else if s > 100 then "Red" else "Green" := by
  simp only [classify_tii, CLASSIFICATIONS, classifyLoop]
  split_ifs <;> rfl

/-- C1 (amended): under the default boundaries `classify_tii` is total on
[0,100], always returns one of the four labels and never raises; each
label's upper end is inclusive on the integer bands [0,25], [26,50],
[51,75], [76,100]; but the bands do not cover [0,100] gaplessly — a score
strictly between a boundary and the next integer (for example
`green_max < s < green_max + 1`) falls through the table and is
classified Green, not the next label up. -/
theorem classify_total_integer_bands (s : ℚ) (h0 : 0 ≤ s) (h100 : s ≤ 100) :
    (classify_tii s = "Green" ∨ classify_tii s = "Yellow" ∨
      classify_tii s = "Orange" ∨ classify_tii s = "Red")
    ∧ (s ≤ 25 → classify_tii s = "Green")
    ∧ (26 ≤ s → s ≤ 50 → classify_tii s = "Yellow")
    ∧ (51 ≤ s → s ≤ 75 → classify_tii s = "Orange")
    ∧ (76 ≤ s → classify_tii s = "Red")
    ∧ (25 < s → s < 26 → classify_tii s = "Green")
    ∧ (50 < s → s < 51 → classify_tii s = "Green")
    ∧ (75 < s → s < 76 → classify_tii s = "Green") := by
  rw [classify_tii_eval]
  refine ⟨by split_ifs <;> simp, ?_, ?_, ?_, ?_, ?_, ?_, ?_⟩ <;>
    · intros
      split_ifs <;> first | rfl | (exfalso; simp_all; try linarith)

/-- Witness for C1: the amended theorem applied at the score 30. -/
theorem classify_total_integer_bands_witness : classify_tii 30 = "Yellow" :=
  (classify_total_integer_bands 30 (by norm_num) (by norm_num)).2.2.1
    (by norm_num) (by norm_num)

/-- Counterexample for C1 as stated: with `epsilon = 1/2` (which satisfies
`0 < epsilon < 1`), `classify_tii (green_max + epsilon) = classify_tii 25.5`
is Green, not Yellow — the claimed gapless partition fails. -/
theorem classify_boundary_gap_counterexample :
    ((0 : ℚ) < 1/2 ∧ (1/2 : ℚ) < 1)
    ∧ classify_tii (25 + 1/2) = "Green"
    ∧ classify_tii (25 + 1/2) ≠ "Yellow" := by
  refine ⟨⟨by norm_num, by norm_num⟩, ?_, ?_⟩ <;>
    · rw [classify_tii_eval]
      norm_num
      try decide

/-- C2 (amended): the composite of `compute_composite` is the sum of the
per-term roundings — each weighted component score is rounded to one
decimal place on its own and the rounded terms are summed; the final
rounding of that sum is the identity in exact arithmetic, so the
composite is NOT a single rounding of the unrounded weighted sum. -/
theorem composite_is_termwise_rounded (s1 s2 s3 s4 w1 w2 w3 w4 : ℚ) :
    compositeScore s1 s2 s3 s4 ⟨w1, w2, w3, w4⟩ =
      round1 (s1 * w1) + round1 (s2 * w2) + round1 (s3 * w3) + round1 (s4 * w4) := by
  unfold compositeScore
  have h : round1 (s1 * w1) + round1 (s2 * w2) + round1 (s3 * w3) + round1 (s4 * w4)
      = ((rhe (10 * (s1 * w1)) + rhe (10 * (s2 * w2)) + rhe (10 * (s3 * w3)) +
          rhe (10 * (s4 * w4)) : ℤ) : ℚ) / 10 := by
    unfold round1; push_cast; ring
  rw [h, round1_tenth]

/-- Counterexample for C2 as stated: with all four weights 1 and all four
component scores 0.04, the code's term-by-term rounding yields composite
0.0, while the claimed single rounding of the weighted sum yields 0.2. -/
theorem composite_single_rounding_counterexample :
    compositeScore (1/25) (1/25) (1/25) (1/25) ⟨1, 1, 1, 1⟩ = 0
    ∧ round1 (1 * (1/25 : ℚ) + 1 * (1/25) + 1 * (1/25) + 1 * (1/25)) = 1/5
    ∧ (0 : ℚ) ≠ 1/5 := by
  refine ⟨?_, ?_, by norm_num⟩ <;>
    norm_num [compositeScore, round1, rhe, Int.floor_eq_iff]

/-- C8: component scores SAS 80, NRCI 70, RIS 60, BTCA 50 under the
default weights 0.30/0.25/0.25/0.20 give composite 66.5, and 66.5
classifies as Orange under the default boundaries. -/
theorem end_to_end_composite_orange :
    compositeScore 80 70 60 50 defaultWeights = 133/2
    ∧ classify_tii (133/2) = "Orange" := by
  constructor
  · norm_num [compositeScore, defaultWeights, round1, rhe, Int.floor_eq_iff]
  · rw [classify_tii_eval]
    norm_num

/-- C10: whenever the win-game absence rate or the loss-game absence rate
of the distribution section is 0 (or the field is missing, which defaults
to 0), the skew block contributes exactly 0 points regardless of the other
rate, and the SAS score reduces to absence + clustering points alone. -/
theorem skew_zero_when_win_or_loss_rate_zero (b : SasBundle)
    (h : b.winRate = 0 ∨ b.lossRate = 0) :
    sasSkewPts b.lossRate b.winRate = 0
    ∧ _score_sas b =
        min (round1 (sasAbsencePts b.absenceRate + sasClusterPts b.clusterRatio)) 100 := by
  have hz : sasSkewPts b.lossRate b.winRate = 0 := by
    unfold sasSkewPts
    rcases h with h | h <;> rw [h] <;> simp
  refine ⟨hz, ?_⟩
  unfold _score_sas
  rw [hz, add_zero]

/-- Witness for C10: a bundle whose stars are absent only in losses
(loss rate 5, win rate 0) gets no skew contribution. -/
theorem skew_zero_when_win_or_loss_rate_zero_witness :
    sasSkewPts skewOnlyLossBundle.lossRate skewOnlyLossBundle.winRate = 0
    ∧ _score_sas skewOnlyLossBundle =
        min (round1 (sasAbsencePts skewOnlyLossBundle.absenceRate +
          sasClusterPts skewOnlyLossBundle.clusterRatio)) 100 :=
  skew_zero_when_win_or_loss_rate_zero skewOnlyLossBundle (Or.inl rfl)

/-! ### Nonnegativity of every scoring block -/

theorem sasAbsencePts_nonneg (r : ℚ) : 0 ≤ sasAbsencePts r := by
  simp only [sasAbsencePts, min_def]
  split_ifs <;> linarith

theorem sasClusterPts_nonneg (r : ℚ) : 0 ≤ sasClusterPts r := by
  simp only [sasClusterPts]
  split_ifs <;> linarith

theorem sasSkewRamp_nonneg (s : ℚ) : 0 ≤ sasSkewRamp s := by
  simp only [sasSkewRamp]
  split_ifs <;> linarith

theorem sasSkewPts_nonneg (lr wr : ℚ) : 0 ≤ sasSkewPts lr wr := by
  unfold sasSkewPts
  split_ifs <;> first | exact sasSkewRamp_nonneg _ | norm_num

theorem nrciDeclinePts_nonneg (d : ℚ) : 0 ≤ nrciDeclinePts d := by
  simp only [nrciDeclinePts]
  split_ifs <;> linarith

theorem nrciCollapsePts_nonneg (c : ℚ) : 0 ≤ nrciCollapsePts c := by
  simp only [nrciCollapsePts]
  split_ifs with h1 h2 h3 h4
  · norm_num
  · rw [abs_of_neg (show c < 0 by linarith)]; linarith
  · rw [abs_of_neg (show c < 0 by linarith)]; linarith
  · rw [abs_of_neg h4]; linarith
  · norm_num

theorem nrciClosePts_nonneg (w : ℚ) : 0 ≤ nrciClosePts w := by
  simp only [nrciClosePts]
  split_ifs <;> linarith

theorem risSigDecPts_nonneg (s : ℚ) : 0 ≤ risSigDecPts s := by
  simp only [risSigDecPts]
  split_ifs <;> linarith

theorem risNewPlayerPts_nonneg (n : ℕ) : 0 ≤ risNewPlayerPts n := by
  refine le_min ?_ (by norm_num)
  positivity

theorem risCorrPts_nonneg (c : ℚ) : 0 ≤ risCorrPts c := by
  simp only [risCorrPts]
  split_ifs with h1 h2 h3
  · norm_num
  · rw [abs_of_neg (show c < 0 by linarith)]; linarith
  · rw [abs_of_neg h3]; linarith
  · norm_num

theorem risExpPts_nonneg (e : ℚ) : 0 ≤ risExpPts e := by
  simp only [risExpPts]
  split_ifs <;> linarith

theorem btcaDeviationPts_nonneg {d : ℚ} (hd : 0 ≤ d) : 0 ≤ btcaDeviationPts d := by
  simp only [btcaDeviationPts]
  split_ifs <;> linarith

theorem btcaTemporalPts_nonneg (p : ℚ) : 0 ≤ btcaTemporalPts p := by
  simp only [btcaTemporalPts]
  split_ifs <;> linarith

theorem btcaCalendarPts_nonneg (w : ℚ) : 0 ≤ btcaCalendarPts w := by
  simp only [btcaCalendarPts]
  split_ifs <;> linarith

theorem btcaDeviation_nonneg (b : BtcaBundle) : 0 ≤ b.deviation := by
  unfold BtcaBundle.deviation
  exact abs_nonneg _

/-- C6: each of the four batch scorers returns exactly 0.0 on the empty
bundle, and on every bundle whatsoever its score lies in [0,100]. -/
theorem scorers_empty_zero_and_bounded :
    (_score_sas emptySasBundle = 0 ∧ _score_nrci emptyNrciBundle = 0
      ∧ _score_ris emptyRisBundle = 0 ∧ _score_btca emptyBtcaBundle = 0)
    ∧ (∀ b : SasBundle, 0 ≤ _score_sas b ∧ _score_sas b ≤ 100)
    ∧ (∀ b : NrciBundle, 0 ≤ _score_nrci b ∧ _score_nrci b ≤ 100)
    ∧ (∀ b : RisBundle, 0 ≤ _score_ris b ∧ _score_ris b ≤ 100)
    ∧ (∀ b : BtcaBundle, 0 ≤ _score_btca b ∧ _score_btca b ≤ 100) := by
  refine ⟨⟨?_, ?_, ?_, ?_⟩, ?_, ?_, ?_, ?_⟩
  · norm_num [_score_sas, emptySasBundle, SasBundle.absenceRate, SasBundle.clusterRatio,
      SasBundle.lossRate, SasBundle.winRate, sasAbsencePts, sasClusterPts, sasSkewPts,
      round1, rhe]
  · norm_num [_score_nrci, emptyNrciBundle, NrciBundle.maxDecline, NrciBundle.nrChange,
      NrciBundle.closeWinPct, nrciDeclinePts, nrciCollapsePts, nrciClosePts, round1, rhe]
  · norm_num [_score_ris, emptyRisBundle, RisBundle.sigDecreases, RisBundle.newRotationCount,
      RisBundle.corrShift, RisBundle.expIncrease, risSigDecPts, risNewPlayerPts, risCorrPts,
      risExpPts, round1, rhe]
  · norm_num [_score_btca, emptyBtcaBundle, BtcaBundle.deviation, BtcaBundle.pctOfPre,
      BtcaBundle.postElimWinRate, btcaDeviationPts, btcaTemporalPts, btcaCalendarPts,
      round1, rhe]
  · intro b
    unfold _score_sas
    constructor
    · refine le_min (round1_nonneg ?_) (by norm_num)
      have h1 := sasAbsencePts_nonneg b.absenceRate
      have h2 := sasClusterPts_nonneg b.clusterRatio
      have h3 := sasSkewPts_nonneg b.lossRate b.winRate
      linarith
    · exact min_le_right _ _
  · intro b
    unfold _score_nrci
    split_ifs
    · norm_num
    · constructor
      · refine le_min (round1_nonneg ?_) (by norm_num)
        have h1 := nrciDeclinePts_nonneg b.maxDecline
        have h2 := nrciCollapsePts_nonneg b.nrChange
        have h3 := nrciClosePts_nonneg b.closeWinPct
        linarith
      · exact min_le_right _ _
  · intro b
    unfold _score_ris
    split_ifs
    · norm_num
    · constructor
      · refine le_min (round1_nonneg ?_) (by norm_num)
        have h1 := risSigDecPts_nonneg b.sigDecreases
        have h2 := risNewPlayerPts_nonneg b.newRotationCount
        have h3 := risCorrPts_nonneg b.corrShift
        have h4 := risExpPts_nonneg b.expIncrease
        linarith
      · exact min_le_right _ _
  · intro b
    unfold _score_btca
    split_ifs
    · norm_num
    · constructor
      · refine le_min (round1_nonneg ?_) (by norm_num)
        have h1 := btcaDeviationPts_nonneg (btcaDeviation_nonneg b)
        have h2 := btcaTemporalPts_nonneg b.pctOfPre
        have h3 := btcaCalendarPts_nonneg b.postElimWinRate
        linarith
      · exact min_le_right _ _

/-- C5: a bundle carrying the error marker scores 0.0 in every component
scorer (the SAS error bundle is the one `compute_sas` produces, with its
sections empty, since `_score_sas` itself has no error guard), and the
composite aggregation still goes through, using 0 for the failed
component while the other three components score normally. -/
theorem error_bundles_contained :
    _score_sas sasErrorBundle = 0
    ∧ (∀ b : NrciBundle, b.error = true → _score_nrci b = 0)
    ∧ (∀ b : RisBundle, b.error = true → _score_ris b = 0)
    ∧ (∀ b : BtcaBundle, b.error = true → _score_btca b = 0)
    ∧ (∀ (bn : NrciBundle) (br : RisBundle) (bb : BtcaBundle) (w : Weights),
        compositeScore (_score_sas sasErrorBundle) (_score_nrci bn) (_score_ris br)
            (_score_btca bb) w
          = compositeScore 0 (_score_nrci bn) (_score_ris br) (_score_btca bb) w)
    ∧ (∀ (bs : SasBundle) (bn : NrciBundle) (br : RisBundle) (bb : BtcaBundle)
        (w : Weights), bn.error = true →
          compositeScore (_score_sas bs) (_score_nrci bn) (_score_ris br)
              (_score_btca bb) w
            = compositeScore (_score_sas bs) 0 (_score_ris br) (_score_btca bb) w)
    ∧ (∀ (bs : SasBundle) (bn : NrciBundle) (br : RisBundle) (bb : BtcaBundle)
        (w : Weights), br.error = true →
          compositeScore (_score_sas bs) (_score_nrci bn) (_score_ris br)
              (_score_btca bb) w
            = compositeScore (_score_sas bs) (_score_nrci bn) 0 (_score_btca bb) w)
    ∧ (∀ (bs : SasBundle) (bn : NrciBundle) (br : RisBundle) (bb : BtcaBundle)
        (w : Weights), bb.error = true →
          compositeScore (_score_sas bs) (_score_nrci bn) (_score_ris br)
              (_score_btca bb) w
            = compositeScore (_score_sas bs) (_score_nrci bn) (_score_ris br) 0 w) := by
  have hsas : _score_sas sasErrorBundle = 0 := by
    norm_num [_score_sas, sasErrorBundle, SasBundle.absenceRate, SasBundle.clusterRatio,
      SasBundle.lossRate, SasBundle.winRate, sasAbsencePts, sasClusterPts, sasSkewPts,
      round1, rhe]
  have hnrci : ∀ b : NrciBundle, b.error = true → _score_nrci b = 0 := by
    intro b h; unfold _score_nrci; rw [h]; simp
  have hris : ∀ b : RisBundle, b.error = true → _score_ris b = 0 := by
    intro b h; unfold _score_ris; rw [h]; simp
  have hbtca : ∀ b : BtcaBundle, b.error = true → _score_btca b = 0 := by
    intro b h; unfold _score_btca; rw [h]; simp
  refine ⟨hsas, hnrci, hris, hbtca, ?_, ?_, ?_, ?_⟩
  · intro bn br bb w; rw [hsas]
  · intro bs bn br bb w h; rw [hnrci bn h]
  · intro bs bn br bb w h; rw [hris br h]
  · intro bs bn br bb w h; rw [hbtca bb h]

/-- Witness for C5: concrete error bundles for each guarded scorer and a
composite evaluation with the error component. -/
theorem error_bundles_contained_witness :
    _score_nrci ⟨true, none, none, none⟩ = 0
    ∧ _score_ris ⟨true, none, none, none⟩ = 0
    ∧ _score_btca ⟨true, none, none, none⟩ = 0
    ∧ compositeScore (_score_sas emptySasBundle) (_score_nrci ⟨true, none, none, none⟩)
        (_score_ris emptyRisBundle) (_score_btca emptyBtcaBundle) defaultWeights
      = compositeScore (_score_sas emptySasBundle) 0 (_score_ris emptyRisBundle)
          (_score_btca emptyBtcaBundle) defaultWeights :=
  ⟨error_bundles_contained.2.1 ⟨true, none, none, none⟩ rfl,
   error_bundles_contained.2.2.1 ⟨true, none, none, none⟩ rfl,
   error_bundles_contained.2.2.2.1 ⟨true, none, none, none⟩ rfl,
   error_bundles_contained.2.2.2.2.2.1 emptySasBundle ⟨true, none, none, none⟩
     emptyRisBundle emptyBtcaBundle defaultWeights rfl⟩

theorem sasAbsencePts_mono {r1 r2 : ℚ} (h : r1 ≤ r2) :
    sasAbsencePts r1 ≤ sasAbsencePts r2 := by
  simp only [sasAbsencePts, min_def]
  split_ifs <;> linarith

/-- C7: the SAS score is monotone non-decreasing in the absence rate when
the clustering and distribution sections are held fixed. -/
theorem sas_monotone_in_absence_rate (b1 b2 : SasBundle)
    (hc : b1.clustering = b2.clustering) (hd : b1.distribution = b2.distribution)
    (hr : b1.absenceRate ≤ b2.absenceRate) :
    _score_sas b1 ≤ _score_sas b2 := by
  unfold _score_sas
  have hcr : b1.clusterRatio = b2.clusterRatio := by
    unfold SasBundle.clusterRatio; rw [hc]
  have hlr : b1.lossRate = b2.lossRate := by
    unfold SasBundle.lossRate; rw [hd]
  have hwr : b1.winRate = b2.winRate := by
    unfold SasBundle.winRate; rw [hd]
  rw [hcr, hlr, hwr]
  refine min_le_min (round1_mono ?_) le_rfl
  have := sasAbsencePts_mono hr
  linarith

/-- Witness for C7: raising the absence rate from 0.2 to 0.4 does not
decrease the SAS score. -/
theorem sas_monotone_in_absence_rate_witness :
    _score_sas rate15Bundle ≤ _score_sas rate25Bundle :=
  sas_monotone_in_absence_rate rate15Bundle rate25Bundle rfl rfl
    (by norm_num [SasBundle.absenceRate, rate15Bundle, rate25Bundle])

/-- C9: for every label the classifier can produce and every expected
value naming one or two labels delimited by `/`, the batch substring test
agrees with delimited-set membership, and with the dashboard's
split-and-strip membership test. -/
theorem match_flag_delimited_membership :
    ∀ c e1 e2 : String, c ∈ tiiLabels → e1 ∈ tiiLabels → e2 ∈ tiiLabels →
      (CLASSIFICATIONS.map (fun r => r.2.2) = tiiLabels)
      ∧ (batchMatch c e1 = true ↔ c = e1)
      ∧ (batchMatch c (e1 ++ "/" ++ e2) = true ↔ (c = e1 ∨ c = e2))
      ∧ batchMatch c e1 = dashboardMatch c e1
      ∧ batchMatch c (e1 ++ "/" ++ e2) = dashboardMatch c (e1 ++ "/" ++ e2) := by
  intro c e1 e2 hc h1 h2
  fin_cases hc <;> fin_cases h1 <;> fin_cases h2 <;> exact (by decide)

/-- Witness for C9: label Orange against the expected value
`"Orange/Red"`. -/
theorem match_flag_delimited_membership_witness :
    batchMatch "Orange" ("Orange" ++ "/" ++ "Red") = true ↔
      (("Orange" : String) = "Orange" ∨ ("Orange" : String) = "Red") :=
  (match_flag_delimited_membership "Orange" "Orange" "Red" (by decide) (by decide)
    (by decide)).2.2.1

/-- C3 (amended): at the documented default slider values the interactive
and batch scorers are NOT pointwise equal — the skew, mild-collapse, low
significant-decrease, small correlation-shift, temporal and calendar
tiers use different slopes or cutoffs (see the counterexample) — but the
sub-scores they do share are identical functions of their inputs: SAS
absence rate and clustering, NRCI rolling decline and close-game, RIS
new-rotation-player points and experimentation (the BTCA deviation block
is the same code text in both paths). -/
theorem interactive_batch_shared_subscores :
    (∀ ar : ℚ, dashSasAbsencePts defaultSasSliders ar = sasAbsencePts ar)
    ∧ (∀ ratio : ℚ, dashSasClusterPts defaultSasSliders ratio = sasClusterPts ratio)
    ∧ (∀ d : ℚ, dashNrciDeclinePts defaultNrciSliders d = nrciDeclinePts d)
    ∧ (∀ wp : ℚ, dashNrciClosePts defaultNrciSliders wp = nrciClosePts wp)
    ∧ (∀ n : ℕ, dashRisNewPlayerPts defaultRisSliders n = risNewPlayerPts n)
    ∧ (∀ e : ℚ, dashRisExpPts e = risExpPts e) := by
  refine ⟨?_, ?_, ?_, ?_, fun n => rfl, fun e => rfl⟩
  · intro ar
    simp only [dashSasAbsencePts, sasAbsencePts, defaultSasSliders]
    norm_num [max_def]
    split_ifs <;> first | ring1 | linarith
  · intro ratio
    simp only [dashSasClusterPts, sasClusterPts, defaultSasSliders]
    norm_num [max_def]
    split_ifs <;> first | ring1 | linarith
  · intro d
    simp only [dashNrciDeclinePts, nrciDeclinePts, defaultNrciSliders]
    norm_num [max_def]
    split_ifs <;> first | ring1 | linarith
  · intro wp
    simp only [dashNrciClosePts, nrciClosePts, defaultNrciSliders]
    norm_num [max_def]
    split_ifs <;> first | ring1 | linarith

/-- Counterexample for C3 as stated: at the default slider values all four
interactive scorers disagree with their batch counterparts on concrete
bundles — skew 1.8 (SAS 24.1 vs 24.0), net-rating change −3 (NRCI 10.0 vs
9.9), one significant decrease (RIS 6.7 vs 10.0), and post-ASB percentage
80 (BTCA 0.0 vs 5.0). -/
theorem interactive_batch_divergence :
    score_sas defaultSasSliders skew18Bundle ≠ _score_sas skew18Bundle
    ∧ score_nrci defaultNrciSliders collapse3Bundle ≠ _score_nrci collapse3Bundle
    ∧ score_ris defaultRisSliders oneSigDecBundle ≠ _score_ris oneSigDecBundle
    ∧ score_btca defaultBtcaSliders pct80Bundle ≠ _score_btca pct80Bundle := by
  refine ⟨?_, ?_, ?_, ?_⟩
  · norm_num [score_sas, _score_sas, skew18Bundle, SasBundle.pyEmpty,
      SasBundle.absenceRate, SasBundle.clusterRatio, SasBundle.lossRate, SasBundle.winRate,
      dashSasAbsencePts, dashSasClusterPts, dashSasSkewPts, dashSasSkewRamp,
      sasAbsencePts, sasClusterPts, sasSkewPts, sasSkewRamp, defaultSasSliders,
      max_def, min_def, round1, rhe, Int.floor_eq_iff]
  · norm_num [score_nrci, _score_nrci, collapse3Bundle, NrciBundle.pyEmpty,
      NrciBundle.maxDecline, NrciBundle.nrChange, NrciBundle.closeWinPct,
      dashNrciDeclinePts, dashNrciCollapsePts, dashNrciClosePts, defaultNrciSliders,
      nrciDeclinePts, nrciCollapsePts, nrciClosePts,
      max_def, min_def, round1, rhe, Int.floor_eq_iff]
  · norm_num [score_ris, _score_ris, oneSigDecBundle, RisBundle.pyEmpty,
      RisBundle.sigDecreases, RisBundle.newRotationCount, RisBundle.corrShift,
      RisBundle.expIncrease, dashRisSigDecPts, dashRisNewPlayerPts, dashRisCorrPts,
      dashRisExpPts, defaultRisSliders, risSigDecPts, risNewPlayerPts, risCorrPts,
      risExpPts, max_def, min_def, round1, rhe, Int.floor_eq_iff]
  · norm_num [score_btca, _score_btca, pct80Bundle, BtcaBundle.pyEmpty,
      BtcaBundle.deviation, BtcaBundle.pctOfPre, BtcaBundle.postElimWinRate,
      dashBtcaTemporalPts, dashBtcaCalendarPts, defaultBtcaSliders,
      btcaDeviationPts, btcaTemporalPts, btcaCalendarPts,
      max_def, min_def, round1, rhe, Int.floor_eq_iff]

theorem winsUpTo_zero (rows : List GameRow) : winsUpTo rows 0 = 0 := by
  simp [winsUpTo]

theorem winsUpTo_succ (rows : List GameRow) (d : ℕ) (h : d < rows.length) :
    winsUpTo rows (d + 1) =
      winsUpTo rows d + (if (rows[d]).wl_win then 1 else 0) := by
  unfold winsUpTo
  rw [List.take_succ, List.countP_append]
  congr 1
  rw [List.getElem?_eq_getElem h]
  simp [List.countP_cons]

/-- Invariant of the elimination walk: started after `d` processed games
with `wins_so_far = winsUpTo rows d`, the walk finds the first game
`k > d` whose `max_possible` falls below the cutoff. -/
theorem elimWalk_spec (rows : List GameRow) (cutoff : ℤ)
    (hnum : ∀ i (h : i < rows.length), (rows[i]).game_number = i + 1) :
    ∀ (l : List GameRow) (d : ℕ), d ≤ rows.length → rows.drop d = l →
      (elimWalk rows.length cutoff l (winsUpTo rows d)).map Prod.snd =
        (List.range' (d + 1) (rows.length - d)).find? fun k =>
          decide ((winsUpTo rows k : ℤ) + ((rows.length : ℤ) - (k : ℤ)) < cutoff) := by
  intro l
  induction l with
  | nil =>
    intro d hd hdrop
    have hge : rows.length ≤ d := List.drop_eq_nil_iff.mp hdrop
    have hdl : rows.length - d = 0 := by omega
    simp [elimWalk, hdl]
  | cons r rest ih =>
    intro d hd hdrop
    have hdlt : d < rows.length := by
      by_contra hge
      push_neg at hge
      rw [List.drop_eq_nil_iff.mpr hge] at hdrop
      exact List.noConfusion hdrop
    have hget : rows.drop d = rows[d] :: rows.drop (d + 1) := List.drop_eq_getElem_cons hdlt
    rw [hdrop] at hget
    injection hget with h1 h2
    have hwins : (if r.wl_win then winsUpTo rows d + 1 else winsUpTo rows d)
        = winsUpTo rows (d + 1) := by
      rw [winsUpTo_succ rows d hdlt, ← h1]
      cases hrw : r.wl_win <;> simp [hrw]
    have hnum_r : r.game_number = d + 1 := by rw [h1]; exact hnum d hdlt
    have hlen : rows.length - d = (rows.length - (d + 1)) + 1 := by omega
    simp only [elimWalk, hwins, hnum_r, hlen, List.range'_succ]
    by_cases hP : (winsUpTo rows (d + 1) : ℤ) + ((rows.length : ℤ) - ((d + 1 : ℕ) : ℤ))
        < cutoff
    · rw [if_pos (by exact_mod_cast hP)]
      rw [List.find?_cons_of_pos _ (by simpa using hP)]
      simp [hnum_r]
    · rw [if_neg (by exact_mod_cast hP)]
      rw [List.find?_cons_of_neg _ (by simpa using hP)]
      exact ih (d + 1) hdlt h2.symm

/-- C4: on a non-empty, chronologically ordered game log with dense
1-based game numbers and a consistent cumulative-wins column, the
resolver returns exactly the first game `k` with
`wins_so_far + (N - k) < cutoff_wins` (wins counted over games `1..k`),
and when no such game exists it returns null date and game number
together with the team's final win count. -/
theorem elimination_first_game (rows : List GameRow) (cutoff : ℤ)
    (hne : rows ≠ [])
    (hnum : rows.map (fun r => r.game_number) = List.range' 1 rows.length)
    (hw : rows.getLast?.map (fun r => r.w) = some (rows.countP (fun r => r.wl_win))) :
    (compute_elimination_date rows cutoff).elimination_game_number
        = specFirstElim rows cutoff
    ∧ (specFirstElim rows cutoff = none →
        (compute_elimination_date rows cutoff).elimination_date = none
        ∧ (compute_elimination_date rows cutoff).final_wins
            = some (rows.countP (fun r => r.wl_win))) := by
  have hnum' : ∀ i (h : i < rows.length), (rows[i]).game_number = i + 1 := by
    intro i h
    have h3 : (rows.map (fun r => r.game_number))[i]? = (List.range' 1 rows.length)[i]? := by
      rw [hnum]
    rw [List.getElem?_map, List.getElem?_eq_getElem h,
      List.getElem?_eq_getElem (by simpa using h), List.getElem_range'_1] at h3
    simp at h3
    omega
  have key := elimWalk_spec rows cutoff hnum' rows 0 (Nat.zero_le _) rfl
  rw [winsUpTo_zero, Nat.sub_zero] at key
  have keyspec : (elimWalk rows.length cutoff rows 0).map Prod.snd
      = specFirstElim rows cutoff := key
  constructor
  · cases hwalk : elimWalk rows.length cutoff rows 0 with
    | none =>
      rw [hwalk] at keyspec
      simp only [compute_elimination_date, hwalk]
      simpa using keyspec
    | some pr =>
      rw [hwalk] at keyspec
      simp only [compute_elimination_date, hwalk]
      simpa using keyspec
  · intro hnone
    cases hwalk : elimWalk rows.length cutoff rows 0 with
    | some pr =>
      rw [hwalk, hnone] at keyspec
      simp at keyspec
    | none =>
      simp only [compute_elimination_date, hwalk]
      exact ⟨trivial, hw⟩

/-- Witness for C4: a three-game log with cutoff 3 — already after game 1
the team can reach at most 2 wins, so it is eliminated at game 1. -/
theorem elimination_first_game_witness :
    (compute_elimination_date elimExampleLog 3).elimination_game_number
      = specFirstElim elimExampleLog 3 :=
  (elimination_first_game elimExampleLog 3 (by simp [elimExampleLog]) (by rfl) (by rfl)).1

end TII
